import Mathlib

/-!
Verification development for the weather-report script (`src/main.py`).

The script is a linear pipeline: fetch → scrape (regex extraction) → append to a
spreadsheet-backed log → read the log back → aggregate to a daily series and
chart it → render an HTML page.  The definitions below are a shallow embedding
of the pieces of that pipeline the verified properties talk about:

* the external spreadsheet is a `List (List String)` of rows;
* a cell read through pandas is an `Option String` (a short row yields `none`,
  mirroring NaN for a missing cell);
* numeric coercion (`pd.to_numeric(errors=..)`) and timestamp coercion
  (`pd.to_datetime(errors=..)` followed by `.dt.date`) are modelled as partial
  parsers returning `Option`, restricted to the literal formats the script
  itself writes (unsigned decimal numerals, `YYYY-MM-DD HH:MM:SS` timestamps);
  anything else coerces to `none`, i.e. to a missing value;
* the regex matchers of `scrape_lake_data` run in the external `re` module; in
  each of the four patterns every capture group is mandatory, so a successful
  search yields all of its groups.  A matcher is therefore modelled as an
  `Option` of the tuple of captured strings, and the extraction logic is
  quantified over the four match results.
-/

/-! ### Small Python-style string helpers -/

/-- Splits a character list at every occurrence of `c` (model of `str.split` /
`String.splitOn` used on the script's own fixed-format strings). -/
def split_on_char (c : Char) : List Char → List (List Char)
  | [] => [[]]
  | x :: xs =>
    let r := split_on_char c xs
    if x = c then [] :: r else (x :: r.headD []) :: r.tail

/-- Parses a nonempty all-digit character list as a natural numeral. -/
def parse_nat_chars (cs : List Char) : Option Nat :=
  if cs.isEmpty then none
  else if cs.all Char.isDigit then
    some (cs.foldl (fun a c => a * 10 + (c.toNat - 48)) 0)
  else none

/-- Model of `pd.to_numeric(errors=..)` on the level cells: an unsigned decimal
numeral such as `1745.32` parses to a rational, anything else is coerced to a
missing value (`none`). -/
def parse_decimal (s : String) : Option ℚ :=
  match split_on_char '.' s.toList with
  | [w] => (parse_nat_chars w).map (fun n => (n : ℚ))
  | [w, f] =>
    match parse_nat_chars w, parse_nat_chars f with
    | some nw, some nf => some ((nw : ℚ) + (nf : ℚ) / (10 : ℚ) ^ f.length)
    | _, _ => none
  | _ => none

/-- A calendar date, the result of `.dt.date` on the parsed scrape timestamp. -/
structure Date where
  year : Nat
  month : Nat
  day : Nat
deriving DecidableEq, Repr

/-- Model of `pd.to_datetime(errors=..).dt.date` on the scrape-time cells: the
script writes timestamps as `YYYY-MM-DD HH:MM:SS`, so the date is the dash-split
prefix before the blank; malformed text coerces to `none` (NaT). -/
def parse_date (s : String) : Option Date :=
  match split_on_char '-' ((split_on_char ' ' s.toList).headD []) with
  | [ys, ms, ds] =>
    match parse_nat_chars ys, parse_nat_chars ms, parse_nat_chars ds with
    | some y, some m, some d =>
      if 1 ≤ m ∧ m ≤ 12 ∧ 1 ≤ d ∧ d ≤ 31 then some ⟨y, m, d⟩ else none
    | _, _, _ => none
  | _ => none

/-- Python `str.strip()` on the captured text (whitespace trim). -/
def py_strip (s : String) : String := s.trim

/-- Helper for `py_title`: tracks whether the previous character was a cased
letter, as Python's `str.title()` does. -/
def py_title_go : Bool → List Char → List Char
  | _, [] => []
  | prevAlpha, c :: cs =>
    let c' := if c.isAlpha then (if prevAlpha then c.toLower else c.toUpper) else c
    c' :: py_title_go c.isAlpha cs

/-- Model of Python `str.title()` used on the forecast trend word. -/
def py_title (s : String) : String := ⟨py_title_go false s.toList⟩

/-! ### The spreadsheet log (`write_to_sheets` / `read_from_sheets`,
`src/main.py:53-103`)

The external table is a list of rows in sheet order; `append` adds at the end.
-/

/-- The fixed 14-column header row written by `write_to_sheets`
(`src/main.py:63-69`). -/
def headerRow : List String :=
  ["Scrape Time",
   "Queen\x27s Bay (ft)", "Queen\x27s Bay (m)", "Queen\x27s Bay Updated",
   "Nelson (ft)", "Nelson (m)", "Nelson Updated",
   "Forecast Trend", "Forecast Level", "Forecast Location", "Forecast Date",
   "Discharge (cfs)", "Discharge Location", "Discharge Date"]

/-- Model of `write_to_sheets` (`src/main.py:53-84`): read range `A1:N1` (the
first row; an empty table yields no values), append the header first when that
read is empty, then append the data row at the end. -/
def write_to_sheets (table : List (List String)) (data_row : List String) :
    List (List String) :=
  let values := table.take 1
  if values.isEmpty then (table ++ [headerRow]) ++ [data_row]
  else table ++ [data_row]

/-- Runs one `write_to_sheets` append per observation row, in order (one
scheduled run each). -/
def append_all (table : List (List String)) (rows : List (List String)) :
    List (List String) :=
  rows.foldl write_to_sheets table

/-- Instrumented variant of `write_to_sheets` that also counts how many times
the header-creation branch (`src/main.py:62-76`) runs. -/
def write_to_sheets_instr (st : List (List String) × Nat) (data_row : List String) :
    List (List String) × Nat :=
  let values := st.1.take 1
  if values.isEmpty then ((st.1 ++ [headerRow]) ++ [data_row], st.2 + 1)
  else (st.1 ++ [data_row], st.2)

/-- Instrumented `append_all`. -/
def append_all_instr (st : List (List String) × Nat) (rows : List (List String)) :
    List (List String) × Nat :=
  rows.foldl write_to_sheets_instr st

/-- Model of `read_from_sheets` (`src/main.py:86-103`): when the table is
unreachable (any exception) the result is the `None` sentinel; otherwise the
full range is read and the call returns `None` when fewer than two rows exist,
else a DataFrame holding the header (as column labels) and every remaining row.
-/
def read_from_sheets (reachable : Bool) (table : List (List String)) :
    Option (List String × List (List String)) :=
  if reachable = false then none
  else
    match table with
    | h :: r :: t => some (h, r :: t)
    | _ => none

/-! ### Extraction (`scrape_lake_data`, `src/main.py:109-174`)

Each of the four regex patterns either matches — yielding all of its capture
groups, since every group in these patterns is mandatory — or does not.  A
match result is the `Option` of the captured strings, in capture-group order.
-/

/-- A successful three-group match (the Queen's Bay, Nelson and discharge
patterns each capture three groups). -/
structure Match3 where
  g1 : String
  g2 : String
  g3 : String
deriving DecidableEq, Repr

/-- A successful four-group match (the forecast pattern captures four groups).
-/
structure Match4 where
  g1 : String
  g2 : String
  g3 : String
  g4 : String
deriving DecidableEq, Repr

/-- The `lake_data` dict built by `scrape_lake_data`: one `Option String` per
key, `none` when the key is absent from the dict. -/
structure LakeData where
  queens_ft : Option String := none
  queens_m : Option String := none
  queens_updated : Option String := none
  nelson_ft : Option String := none
  nelson_m : Option String := none
  nelson_updated : Option String := none
  forecast_trend : Option String := none
  forecast_level : Option String := none
  forecast_location : Option String := none
  forecast_date : Option String := none
  discharge_cfs : Option String := none
  discharge_location : Option String := none
  discharge_date : Option String := none
deriving DecidableEq, Repr

/-- Model of the field-assembly part of `scrape_lake_data`
(`src/main.py:128-170`): given the scrape timestamp `now` and the four regex
match results, build the `lake_data` dict and the 14-slot `data_row`, filling
the slots of an unmatched group with empty strings. -/
def scrape_lake_data (now : String) (qm nm : Option Match3) (fm : Option Match4)
    (dm : Option Match3) : LakeData × List String :=
  let st0 : LakeData × List String := ({}, [now])
  let st1 :=
    match qm with
    | some q =>
      ({ st0.1 with queens_ft := some q.g1, queens_m := some q.g2,
                    queens_updated := some (py_strip q.g3) },
       st0.2 ++ [q.g1, q.g2, py_strip q.g3])
    | none => (st0.1, st0.2 ++ ["", "", ""])
  let st2 :=
    match nm with
    | some n =>
      ({ st1.1 with nelson_ft := some n.g1, nelson_m := some n.g2,
                    nelson_updated := some (py_strip n.g3) },
       st1.2 ++ [n.g1, n.g2, py_strip n.g3])
    | none => (st1.1, st1.2 ++ ["", "", ""])
  let st3 :=
    match fm with
    | some f =>
      ({ st2.1 with forecast_trend := some (py_strip f.g1),
                    forecast_level := some (py_strip f.g2),
                    forecast_location := some (py_strip f.g3),
                    forecast_date := some (py_strip f.g4) },
       st2.2 ++ [py_strip f.g1, py_strip f.g2, py_strip f.g3, py_strip f.g4])
    | none => (st2.1, st2.2 ++ ["", "", "", ""])
  let st4 :=
    match dm with
    | some d =>
      ({ st3.1 with discharge_cfs := some (py_strip d.g3),
                    discharge_location := some (py_strip d.g1),
                    discharge_date := some (py_strip d.g2) },
       st3.2 ++ [py_strip d.g3, py_strip d.g1, py_strip d.g2])
    | none => (st3.1, st3.2 ++ ["", "", ""])
  st4

/-! ### Chart construction (`create_lake_chart`, `src/main.py:176-293`)

`read_from_sheets` yields a DataFrame whose rows are the log's data rows; a
cell of column `i` in row `r` is `r[i]?` (a short row gives `none`, i.e. NaN).
The pipeline parses the scrape time to a calendar date, coerces the Queen's Bay
level to a number, groups by date (pandas sorts the group keys ascending and
drops rows whose key is NaT), aggregates the level by `mean` (skipping missing
values; all-missing gives a missing mean) and the two forecast columns by
`first` (the first non-missing cell of the group, `src/main.py:198-202`), and
finally drops the dates whose aggregated level is missing (`src/main.py:204`).
-/

/-- The calendar date of a log row: column 0 coerced by
`pd.to_datetime(errors=..).dt.date`. -/
def row_date (r : List String) : Option Date := r[0]?.bind parse_date

/-- The numeric Queen's Bay level of a log row: column 1 coerced by
`pd.to_numeric(errors=..)`. -/
def row_qb (r : List String) : Option ℚ := r[1]?.bind parse_decimal

/-- Mean of the non-missing values of a group, missing when there are none
(pandas `mean` with NaN skipping). -/
def mean_opt (vs : List ℚ) : Option ℚ :=
  match vs with
  | [] => none
  | _ => some (vs.sum / (vs.length : ℚ))

/-- Ordered insertion used to model pandas' ascending sort of group keys. -/
def date_key (d : Date) : Nat := d.year * 10000 + d.month * 100 + d.day

/-- Inserts a date into a key-sorted list, keeping it key-sorted. -/
def insert_sorted (d : Date) : List Date → List Date
  | [] => [d]
  | x :: xs => if date_key d ≤ date_key x then d :: x :: xs else x :: insert_sorted d xs

/-- Insertion sort of dates by ascending key. -/
def sort_dates (l : List Date) : List Date := l.foldr insert_sorted []

/-- The group keys of `df.groupby('Date')`: every distinct parseable scrape
date, ascending (rows with an unparseable scrape time have a NaT key and are
dropped by the groupby). -/
def distinct_dates (rows : List (List String)) : List Date :=
  sort_dates (rows.filterMap row_date).dedup

/-- The rows of one date group, in original row order. -/
def group_rows (rows : List (List String)) (d : Date) : List (List String) :=
  rows.filter (fun r => decide (row_date r = some d))

/-- One row of the aggregated `daily_data` frame. -/
structure DailyPoint where
  date : Date
  qbMean : Option ℚ
  fLevel : Option String
  fDate : Option String
deriving DecidableEq, Repr

/-- The grouped/aggregated frame of `src/main.py:198-202`: one row per distinct
date, level aggregated by `mean`, forecast level and forecast date aggregated
by `first` (first non-missing cell of the group). -/
def daily_agg (rows : List (List String)) : List DailyPoint :=
  (distinct_dates rows).map (fun d =>
    let g := group_rows rows d
    { date := d
      qbMean := mean_opt (g.filterMap row_qb)
      fLevel := (g.filterMap (fun r => r[8]?)).head?
      fDate := (g.filterMap (fun r => r[10]?)).head? })

/-- The `daily_data` frame after `dropna(subset=..)` on the Queen's Bay mean
(`src/main.py:204`). -/
def daily_data (rows : List (List String)) : List DailyPoint :=
  (daily_agg rows).filter (fun p => p.qbMean.isSome)

/-- Data-level model of `create_lake_chart` (`src/main.py:176-293`): read the
log (`None` or fewer than one data row aborts with no chart), aggregate to the
daily series, and abort with no chart when fewer than one valid point remains;
otherwise the chart is produced from exactly the `daily_data` points.  `none`
models the `return False` / no-chart paths. -/
def create_lake_chart (reachable : Bool) (table : List (List String)) :
    Option (List DailyPoint) :=
  match read_from_sheets reachable table with
  | none => none
  | some (_, dataRows) =>
    if dataRows.length < 1 then none
    else
      let dd := daily_data dataRows
      if dd.length < 1 then none else some dd

/-- The spec's reduction "last non-missing value in the group", written from
the spec's words for comparison with what the code computes. -/
def last_non_missing (cells : List (Option String)) : Option String :=
  (cells.filterMap id).getLast?

/-- The reduction the code actually applies to the forecast columns: pandas
`first`, the first non-missing value in the group. -/
def first_non_missing (cells : List (Option String)) : Option String :=
  (cells.filterMap id).head?

/-! ### Page rendering (`generate_index_html`, lake section,
`src/main.py:434-493`)

Only the data content of the lake section is modelled: the four always-present
gauge slots of the Queen's Bay and Nelson cards, and the two optional cards
(forecast, discharge) with their data slots.  The surrounding fixed HTML is
rendering-library territory and carries no data.
-/

/-- The data slots of the rendered lake section: the Queen's Bay and Nelson
card values, and the optional forecast card `(level, trend.title(), date)` and
discharge card `(cfs, location, date)`. -/
structure LakeSection where
  queens_ft_text : String
  queens_m_text : String
  nelson_ft_text : String
  nelson_m_text : String
  forecast_card : Option (String × String × String)
  discharge_card : Option (String × String × String)
deriving DecidableEq, Repr

/-- Truthiness of the `lake_data` dict (`if lake_data:` at `src/main.py:436`):
the dict is nonempty, i.e. at least one key was set. -/
def lake_truthy (ld : LakeData) : Bool :=
  ld.queens_ft.isSome || ld.queens_m.isSome || ld.queens_updated.isSome ||
  ld.nelson_ft.isSome || ld.nelson_m.isSome || ld.nelson_updated.isSome ||
  ld.forecast_trend.isSome || ld.forecast_level.isSome ||
  ld.forecast_location.isSome || ld.forecast_date.isSome ||
  ld.discharge_cfs.isSome || ld.discharge_location.isSome ||
  ld.discharge_date.isSome

/-- Model of the lake-section assembly inside `generate_index_html`
(`src/main.py:434-493`): no section without a truthy `lake_data`; the gauge
slots render `lake_data.get(key, 'N/A')`; the forecast card is emitted only
when `'forecast_level' in lake_data and lake_data.get('forecast_level')` is
truthy (`src/main.py:460`), its secondary slots falling back to `''`; the
discharge card likewise keys on `discharge_cfs` (`src/main.py:470`). -/
def lake_section_html (lake_data : Option LakeData) : Option LakeSection :=
  match lake_data with
  | none => none
  | some ld =>
    if lake_truthy ld then
      some
        { queens_ft_text := ld.queens_ft.getD "N/A"
          queens_m_text := ld.queens_m.getD "N/A"
          nelson_ft_text := ld.nelson_ft.getD "N/A"
          nelson_m_text := ld.nelson_m.getD "N/A"
          forecast_card :=
            match ld.forecast_level with
            | some lv =>
              if lv ≠ "" then
                some (lv, py_title (ld.forecast_trend.getD ""), ld.forecast_date.getD "")
              else none
            | none => none
          discharge_card :=
            match ld.discharge_cfs with
            | some cfs =>
              if cfs ≠ "" then
                some (cfs, ld.discharge_location.getD "", ld.discharge_date.getD "")
              else none
            | none => none }
    else none

/-! ### Run-level control flow (`main`, `src/main.py:937-974`)

`get_weather_data` re-raises its fetch failure (`src/main.py:311-313`), and
`main`'s only handler re-raises whatever reaches it (`src/main.py:970-974`), so
a weather failure aborts the run before any later step.  `scrape_lake_data`
catches internally and returns `(None, None)` (`src/main.py:172-174`); the
sheets write runs only when the scrape produced truthy data and its failure is
caught at the call site (`src/main.py:950-957`); `create_lake_chart` catches
internally and returns `False` (`src/main.py:289-293`); `generate_index_html`
has no handler, so its failure propagates through `main`'s handler and aborts
the run.
-/

/-- The pipeline steps of one run. -/
inductive Step where
  | weather
  | scrape
  | sheets
  | chart
  | html
deriving DecidableEq, Repr

/-- Which of the five underlying operations would succeed on this run.
`scrapeOk` means the lake fetch succeeded and produced a truthy `lake_data`. -/
structure StepOutcomes where
  weatherOk : Bool
  scrapeOk : Bool
  sheetsOk : Bool
  chartOk : Bool
  htmlOk : Bool
deriving DecidableEq, Repr

/-- Model of `main` (`src/main.py:937-974`): returns the steps attempted, the
steps that succeeded, and the step whose exception aborted the run (if any). -/
def main_run (o : StepOutcomes) : List Step × List Step × Option Step :=
  if o.weatherOk = false then ([Step.weather], [], some Step.weather)
  else
    let att := [Step.weather, Step.scrape] ++
      (if o.scrapeOk then [Step.sheets] else []) ++ [Step.chart, Step.html]
    let ok := [Step.weather] ++
      (if o.scrapeOk then [Step.scrape] else []) ++
      (if o.scrapeOk && o.sheetsOk then [Step.sheets] else []) ++
      (if o.chartOk then [Step.chart] else []) ++
      (if o.htmlOk then [Step.html] else [])
    (att, ok, if o.htmlOk = false then some Step.html else none)

/-! ### Reference-year projection (other script revisions) -/

/-- Gregorian leap-year test. -/
def isLeapYear (y : Nat) : Bool :=
  decide (y % 4 = 0 ∧ (y % 100 ≠ 0 ∨ y % 400 = 0))

/-- Modelled from the spec: the reference-year projection of chart points
(`YearOverlaySeries`, spec §3 and §4.3 step 4) is implemented in other
revisions of this repository that are not under `src/` — `src/main.py` plots
raw dates with no overlay.  Per the spec, a point's date is re-dated onto the
fixed reference year, keeping its month-day pair, and a point falling on
Feb-29 when the reference year is not a leap year is remapped to Feb-28 rather
than dropped (`none` would model a dropped point; no input is dropped). -/
def remap_to_reference_year (refYear : Nat) (d : Date) : Option Date :=
  if d.month = 2 ∧ d.day = 29 ∧ isLeapYear refYear = false then
    some ⟨refYear, 2, 28⟩
  else some ⟨refYear, d.month, d.day⟩

/-! ### Stating helpers and concrete inputs used by the verified properties -/

/-- Rational-free projection of a daily point: its date, whether its level mean
is present, and its two forecast cells. -/
def point_shape (p : DailyPoint) : Date × Bool × Option String × Option String :=
  (p.date, p.qbMean.isSome, p.fLevel, p.fDate)

/-- Rational-free projection of a chart outcome. -/
def chart_shape (c : Option (List DailyPoint)) :
    Option (List (Date × Bool × Option String × Option String)) :=
  c.map (fun l => l.map point_shape)

/-- Placeholder daily point used as a `headD` default. -/
def defaultPoint : DailyPoint := ⟨⟨0, 0, 0⟩, none, none, none⟩

/-- The spec's example observation, realized as a 14-column log row: the
scrape timestamp, `1745.32` in the Queen's Bay (ft) column, `1748.0` in the
Forecast Level column, `November 21` in the Forecast Date column, every other
column empty. -/
def exampleRow : List String :=
  ["2025-11-01 06:00:00", "1745.32", "", "", "", "", "", "",
   "1748.0", "", "November 21", "", "", ""]

/-- A second log row, one day later, for the two-dates part of the example. -/
def exampleRow2 : List String :=
  ["2025-11-02 06:00:00", "1745.62", "", "", "", "", "", "",
   "1748.0", "", "November 21", "", "", ""]

/-- A second same-day scrape with a different forecast level and date,
observed after `exampleRow`. -/
def sameDayRow2 : List String :=
  ["2025-11-01 12:00:00", "1745.52", "", "", "", "", "", "",
   "1750.0", "", "November 25", "", "", ""]

/-- A lake observation with the Queen's Bay and forecast groups absent and the
Nelson and discharge groups present. -/
def witnessLake : LakeData :=
  { nelson_ft := some "1744.01", nelson_m := some "531.58",
    nelson_updated := some "Nov 1",
    discharge_cfs := some "30000", discharge_location := some "Brilliant Dam",
    discharge_date := some "October 31" }

/-- The lake section rendered from `witnessLake`. -/
def witnessSection : LakeSection :=
  { queens_ft_text := "N/A", queens_m_text := "N/A",
    nelson_ft_text := "1744.01", nelson_m_text := "531.58",
    forecast_card := none,
    discharge_card := some ("30000", "Brilliant Dam", "October 31") }

/-! ### Helper lemmas -/

theorem mem_insert_sorted {a d : Date} {l : List Date} :
    a ∈ insert_sorted d l ↔ a = d ∨ a ∈ l := by
  induction l with
  | nil => simp [insert_sorted]
  | cons x xs ih =>
    simp only [insert_sorted]
    split
    · simp [List.mem_cons]
    · simp only [List.mem_cons, ih]
      tauto

theorem nodup_insert_sorted {d : Date} {l : List Date} (hd : d ∉ l)
    (h : l.Nodup) : (insert_sorted d l).Nodup := by
  induction l with
  | nil => simp [insert_sorted]
  | cons x xs ih =>
    have h2 := List.nodup_cons.mp h
    simp only [insert_sorted]
    split
    · exact List.nodup_cons.mpr ⟨hd, h⟩
    · have hdx : d ≠ x := fun he => hd (he ▸ List.mem_cons_self x xs)
      have hdxs : d ∉ xs := fun hh => hd (List.mem_cons_of_mem _ hh)
      have hx : x ∉ insert_sorted d xs := by
        rw [mem_insert_sorted]
        rintro (rfl | hx2)
        · exact hdx rfl
        · exact h2.1 hx2
      exact List.nodup_cons.mpr ⟨hx, ih hdxs h2.2⟩

theorem mem_sort_dates {a : Date} {l : List Date} : a ∈ sort_dates l ↔ a ∈ l := by
  induction l with
  | nil => simp [sort_dates]
  | cons x xs ih =>
    show a ∈ insert_sorted x (sort_dates xs) ↔ _
    rw [mem_insert_sorted, ih]
    simp [List.mem_cons]

theorem nodup_sort_dates {l : List Date} (h : l.Nodup) : (sort_dates l).Nodup := by
  induction l with
  | nil => simp [sort_dates]
  | cons x xs ih =>
    have h2 := List.nodup_cons.mp h
    have hx : x ∉ sort_dates xs := fun hh => h2.1 (mem_sort_dates.mp hh)
    exact nodup_insert_sorted hx (ih h2.2)

theorem nodup_distinct_dates (rows : List (List String)) :
    (distinct_dates rows).Nodup :=
  nodup_sort_dates (List.nodup_dedup _)

theorem daily_agg_dates (rows : List (List String)) :
    (daily_agg rows).map (fun p => p.date) = distinct_dates rows := by
  rw [daily_agg, List.map_map]
  exact List.map_id _

theorem first_non_missing_map {α : Type} (f : α → Option String) (l : List α) :
    first_non_missing (l.map f) = (l.filterMap f).head? := by
  simp [first_non_missing, List.filterMap_map]

theorem write_to_sheets_nonempty (t : List (List String)) (r : List String)
    (h : t ≠ []) : write_to_sheets t r = t ++ [r] := by
  cases t with
  | nil => exact absurd rfl h
  | cons a l => simp [write_to_sheets]

theorem append_all_nonempty (rows : List (List String)) :
    ∀ t : List (List String), t ≠ [] → append_all t rows = t ++ rows := by
  induction rows with
  | nil => intro t ht; simp [append_all]
  | cons r rs ih =>
    intro t ht
    show append_all (write_to_sheets t r) rs = t ++ r :: rs
    rw [write_to_sheets_nonempty t r ht, ih (t ++ [r]) (by simp)]
    simp

theorem append_all_instr_nonempty (rows : List (List String)) :
    ∀ (t : List (List String)) (c : Nat), t ≠ [] →
      append_all_instr (t, c) rows = (t ++ rows, c) := by
  induction rows with
  | nil => intro t c ht; simp [append_all_instr]
  | cons r rs ih =>
    intro t c ht
    show append_all_instr (write_to_sheets_instr (t, c) r) rs = (t ++ r :: rs, c)
    have hw : write_to_sheets_instr (t, c) r = (t ++ [r], c) := by
      cases t with
      | nil => exact absurd rfl ht
      | cons a l => simp [write_to_sheets_instr]
    rw [hw, ih (t ++ [r]) c (by simp)]
    simp

/-- C3 counterexample: the claim quantifies over every `N`, but appending `N = 0`
observations to an empty log leaves the log with `0` rows, not `N + 1 = 1`: the
header is created lazily by the first append, and with no append it is never
written. -/
theorem append_empty_no_header :
    ¬ (append_all [] ([] : List (List String))).length = 0 + 1 := by decide

/-- C3 (amended to `N ≥ 1`): appending `N ≥ 1` observations to an initially
empty log yields the header row followed by the `N` observation rows in append
order — `N + 1` rows in total — and the header-creation branch of
`write_to_sheets` runs exactly once, on the first append. -/
theorem append_header_once (rows : List (List String)) (h : rows ≠ []) :
    append_all [] rows = headerRow :: rows ∧
    (append_all [] rows).length = rows.length + 1 ∧
    (append_all_instr ([], 0) rows).2 = 1 := by
  obtain ⟨r, rs, rfl⟩ := List.exists_cons_of_ne_nil h
  have h1 : append_all [] (r :: rs) = headerRow :: r :: rs := by
    show append_all (write_to_sheets [] r) rs = _
    have hw : write_to_sheets [] r = [headerRow, r] := rfl
    rw [hw, append_all_nonempty rs [headerRow, r] (by simp)]
    rfl
  refine ⟨h1, ?_, ?_⟩
  · rw [h1]; simp
  · show (append_all_instr (write_to_sheets_instr ([], 0) r) rs).2 = 1
    have hw : write_to_sheets_instr ([], 0) r = ([headerRow, r], 1) := rfl
    rw [hw, append_all_instr_nonempty rs [headerRow, r] 1 (by simp)]

/-- C3 witness: one append to the empty log yields exactly the header plus that
row, with one header write. -/
theorem append_header_once_witness :
    append_all [] [exampleRow] = headerRow :: [exampleRow] ∧
    (append_all [] [exampleRow]).length = [exampleRow].length + 1 ∧
    (append_all_instr ([], 0) [exampleRow]).2 = 1 :=
  append_header_once [exampleRow] (by simp)

/-- C4: `read_from_sheets` returns every row — the header (as the DataFrame's
column labels) and all remaining rows — when the table is reachable and has at
least two rows, and returns the `None` sentinel rather than raising when fewer
than two rows exist or the table is unreachable. -/
theorem read_from_sheets_sentinel (reachable : Bool) (table : List (List String)) :
    (reachable = true → 2 ≤ table.length →
      ∃ h t, read_from_sheets reachable table = some (h, t) ∧ h :: t = table) ∧
    (table.length < 2 → read_from_sheets reachable table = none) ∧
    (reachable = false → read_from_sheets reachable table = none) := by
  refine ⟨?_, ?_, ?_⟩
  · intro hr hlen
    subst hr
    match table, hlen with
    | h :: r :: t, _ => exact ⟨h, r :: t, by simp [read_from_sheets], rfl⟩
  · intro hlen
    cases reachable with
    | false => simp [read_from_sheets]
    | true =>
      match table, hlen with
      | [], _ => simp [read_from_sheets]
      | [h], _ => simp [read_from_sheets]
  · intro hr
    subst hr
    simp [read_from_sheets]

/-- C4 witness: a reachable two-row table is returned whole; a header-only
table and an unreachable table both give the sentinel. -/
theorem read_from_sheets_sentinel_witness :
    (∃ h t, read_from_sheets true [headerRow, exampleRow] = some (h, t) ∧
      h :: t = [headerRow, exampleRow]) ∧
    read_from_sheets true [headerRow] = none ∧
    read_from_sheets false [headerRow, exampleRow] = none :=
  ⟨(read_from_sheets_sentinel true [headerRow, exampleRow]).1 rfl (by simp),
   (read_from_sheets_sentinel true [headerRow]).2.1 (by simp),
   (read_from_sheets_sentinel false [headerRow, exampleRow]).2.2 rfl⟩

/-- C6: the daily series handed to plotting contains at most one point per
calendar date (the mapped dates are duplicate-free), and every surviving point
sits on a date with at least one parseable Queen's Bay reading — a date whose
readings are all missing or unparseable has a missing mean and is dropped by
the `dropna` step before plotting. -/
theorem daily_series_one_point_per_date (rows : List (List String)) :
    ((daily_data rows).map (fun p => p.date)).Nodup ∧
    ∀ p ∈ daily_data rows,
      ∃ r ∈ rows, row_date r = some p.date ∧ (row_qb r).isSome = true := by
  constructor
  · have h2 : List.Sublist ((daily_data rows).map (fun p => p.date))
        ((daily_agg rows).map (fun p => p.date)) :=
      (List.filter_sublist _).map _
    rw [daily_agg_dates] at h2
    exact (nodup_distinct_dates rows).sublist h2
  · intro p hp
    have hps := List.mem_filter.mp hp
    obtain ⟨d, hd, rfl⟩ := List.mem_map.mp hps.1
    have hsome := hps.2
    simp only [Option.isSome_iff_exists] at hsome
    have hvs : (group_rows rows d).filterMap row_qb ≠ [] := by
      intro hnil
      have : (mean_opt ((group_rows rows d).filterMap row_qb)).isSome = true := by
        simpa using hps.2
      rw [hnil] at this
      simp [mean_opt] at this
    obtain ⟨v, hv⟩ := List.exists_mem_of_ne_nil _ hvs
    obtain ⟨r, hr, hrv⟩ := List.mem_filterMap.mp hv
    have hrq := List.mem_filter.mp hr
    refine ⟨r, hrq.1, ?_, ?_⟩
    · exact of_decide_eq_true hrq.2
    · rw [hrv]; rfl

/-- C6 witness: on the single-row log the one surviving point's date is backed
by a row with a parseable Queen's Bay reading. -/
theorem daily_series_one_point_per_date_witness :
    ∃ r ∈ [exampleRow],
      row_date r = some ((daily_data [exampleRow]).headD defaultPoint).date ∧
      (row_qb r).isSome = true := by
  have hne : daily_data [exampleRow] ≠ [] := by decide
  have hmem : (daily_data [exampleRow]).headD defaultPoint ∈ daily_data [exampleRow] := by
    cases hl : daily_data [exampleRow] with
    | nil => exact absurd hl hne
    | cons a l => simp
  exact (daily_series_one_point_per_date [exampleRow]).2 _ hmem

/-- C1 counterexample: two same-day scrapes whose Forecast Level cells are
`1748.0` (earlier row) and `1750.0` (later row) aggregate to `1748.0` — pandas
`first`, the first non-missing value of the group — while the claim's "last
non-missing value in the group" would be `1750.0`. -/
theorem daily_agg_forecast_not_last :
    (daily_agg [exampleRow, sameDayRow2]).map (fun p => p.fLevel) = [some "1748.0"] ∧
    last_non_missing
        ((group_rows [exampleRow, sameDayRow2] ⟨2025, 11, 1⟩).map (fun r => r[8]?)) =
      some "1750.0" ∧
    (some "1748.0" : Option String) ≠ some "1750.0" := by decide

/-- C1 (amended from "last" to "first"): in the day-grouping step every
aggregated point carries the mean of its group's parseable Queen's Bay values
and, for each forecast column, the first non-missing value of its group — so
same-day repeated scrapes converge to the earliest forecast observed that day.
-/
theorem daily_agg_mean_and_first (rows : List (List String)) (p : DailyPoint)
    (hp : p ∈ daily_agg rows) :
    p.qbMean = mean_opt ((group_rows rows p.date).filterMap row_qb) ∧
    p.fLevel = first_non_missing ((group_rows rows p.date).map (fun r => r[8]?)) ∧
    p.fDate = first_non_missing ((group_rows rows p.date).map (fun r => r[10]?)) := by
  obtain ⟨d, hd, rfl⟩ := List.mem_map.mp hp
  refine ⟨rfl, ?_, ?_⟩
  · rw [first_non_missing_map]
  · rw [first_non_missing_map]

/-- C1 witness: the single-row log's aggregated point satisfies the mean/first
reductions. -/
theorem daily_agg_mean_and_first_witness :
    ((daily_agg [exampleRow]).headD defaultPoint).fLevel =
      first_non_missing
        ((group_rows [exampleRow] ((daily_agg [exampleRow]).headD defaultPoint).date).map
          (fun r => r[8]?)) := by
  have hne : daily_agg [exampleRow] ≠ [] := by decide
  have hmem : (daily_agg [exampleRow]).headD defaultPoint ∈ daily_agg [exampleRow] := by
    cases hl : daily_agg [exampleRow] with
    | nil => exact absurd hl hne
    | cons a l => simp
  exact (daily_agg_mean_and_first [exampleRow] _ hmem).2.1

/-- C5 counterexample: chart generation on the single-row log built from the
example observation does NOT drop the row — the log's one valid point survives
the filter (`len(daily_data) < 1` only rejects zero points) and a chart is
produced from it, against the claim's "drops the row and produces no chart".
-/
theorem single_row_log_chart_produced :
    (create_lake_chart true (write_to_sheets [] exampleRow)).isSome = true ∧
    chart_shape (create_lake_chart true (write_to_sheets [] exampleRow)) =
      some [(⟨2025, 11, 1⟩, true, some "1748.0", some "November 21")] := by decide

/-- C5 (amended: the single-row log is plotted, not dropped): appending the
example observation's row to an empty log puts it at row 2 after the header
with `1745.32`, `1748.0` and `November 21` in their fixed columns and every
other data column empty; chart generation on that log produces a chart with
exactly one plotted point; and two appended rows for two different dates
produce exactly one plotted point per date. -/
theorem example_observation_pipeline :
    write_to_sheets [] exampleRow = [headerRow, exampleRow] ∧
    exampleRow[1]? = some "1745.32" ∧ exampleRow[8]? = some "1748.0" ∧
    exampleRow[10]? = some "November 21" ∧
    exampleRow[2]? = some "" ∧ exampleRow[3]? = some "" ∧
    exampleRow[4]? = some "" ∧ exampleRow[5]? = some "" ∧
    exampleRow[6]? = some "" ∧ exampleRow[7]? = some "" ∧
    exampleRow[9]? = some "" ∧ exampleRow[11]? = some "" ∧
    exampleRow[12]? = some "" ∧ exampleRow[13]? = some "" ∧
    chart_shape (create_lake_chart true [headerRow, exampleRow]) =
      some [(⟨2025, 11, 1⟩, true, some "1748.0", some "November 21")] ∧
    chart_shape (create_lake_chart true [headerRow, exampleRow, exampleRow2]) =
      some [(⟨2025, 11, 1⟩, true, some "1748.0", some "November 21"),
            (⟨2025, 11, 2⟩, true, some "1748.0", some "November 21")] := by
  refine ⟨?_, ?_, ?_, ?_, ?_, ?_, ?_, ?_, ?_, ?_, ?_, ?_, ?_, ?_, ?_, ?_⟩ <;>
    decide

/-- C2: extraction is all-or-nothing per field group — each group's fields are
present in `lake_data` exactly when its own pattern matched, and each group's
values are unaffected by the other three match results, so a document missing
one pattern loses exactly that group and no partially-populated group can
occur. -/
theorem scrape_groups_all_or_nothing (now : String) (qm nm : Option Match3)
    (fm : Option Match4) (dm : Option Match3) :
    ((scrape_lake_data now qm nm fm dm).1.queens_ft.isSome = qm.isSome ∧
     (scrape_lake_data now qm nm fm dm).1.queens_m.isSome = qm.isSome ∧
     (scrape_lake_data now qm nm fm dm).1.queens_updated.isSome = qm.isSome) ∧
    ((scrape_lake_data now qm nm fm dm).1.nelson_ft.isSome = nm.isSome ∧
     (scrape_lake_data now qm nm fm dm).1.nelson_m.isSome = nm.isSome ∧
     (scrape_lake_data now qm nm fm dm).1.nelson_updated.isSome = nm.isSome) ∧
    ((scrape_lake_data now qm nm fm dm).1.forecast_trend.isSome = fm.isSome ∧
     (scrape_lake_data now qm nm fm dm).1.forecast_level.isSome = fm.isSome ∧
     (scrape_lake_data now qm nm fm dm).1.forecast_location.isSome = fm.isSome ∧
     (scrape_lake_data now qm nm fm dm).1.forecast_date.isSome = fm.isSome) ∧
    ((scrape_lake_data now qm nm fm dm).1.discharge_cfs.isSome = dm.isSome ∧
     (scrape_lake_data now qm nm fm dm).1.discharge_location.isSome = dm.isSome ∧
     (scrape_lake_data now qm nm fm dm).1.discharge_date.isSome = dm.isSome) ∧
    ((scrape_lake_data now qm nm fm dm).1.queens_ft =
       (scrape_lake_data now qm none none none).1.queens_ft ∧
     (scrape_lake_data now qm nm fm dm).1.queens_m =
       (scrape_lake_data now qm none none none).1.queens_m ∧
     (scrape_lake_data now qm nm fm dm).1.queens_updated =
       (scrape_lake_data now qm none none none).1.queens_updated) ∧
    ((scrape_lake_data now qm nm fm dm).1.nelson_ft =
       (scrape_lake_data now none nm none none).1.nelson_ft ∧
     (scrape_lake_data now qm nm fm dm).1.nelson_m =
       (scrape_lake_data now none nm none none).1.nelson_m ∧
     (scrape_lake_data now qm nm fm dm).1.nelson_updated =
       (scrape_lake_data now none nm none none).1.nelson_updated) ∧
    ((scrape_lake_data now qm nm fm dm).1.forecast_trend =
       (scrape_lake_data now none none fm none).1.forecast_trend ∧
     (scrape_lake_data now qm nm fm dm).1.forecast_level =
       (scrape_lake_data now none none fm none).1.forecast_level ∧
     (scrape_lake_data now qm nm fm dm).1.forecast_location =
       (scrape_lake_data now none none fm none).1.forecast_location ∧
     (scrape_lake_data now qm nm fm dm).1.forecast_date =
       (scrape_lake_data now none none fm none).1.forecast_date) ∧
    ((scrape_lake_data now qm nm fm dm).1.discharge_cfs =
       (scrape_lake_data now none none none dm).1.discharge_cfs ∧
     (scrape_lake_data now qm nm fm dm).1.discharge_location =
       (scrape_lake_data now none none none dm).1.discharge_location ∧
     (scrape_lake_data now qm nm fm dm).1.discharge_date =
       (scrape_lake_data now none none none dm).1.discharge_date) := by
  rcases qm with _ | q <;> rcases nm with _ | n <;> rcases fm with _ | f <;>
    rcases dm with _ | d <;> simp [scrape_lake_data]

/-- C10: for every combination of match results the scrape's `data_row` has
exactly 14 elements — the timestamp followed by 13 field slots, matching the
sheet's 14-column `A:N` header — and every slot of an unmatched group holds the
empty string. -/
theorem data_row_schema (now : String) (qm nm : Option Match3)
    (fm : Option Match4) (dm : Option Match3) :
    (scrape_lake_data now qm nm fm dm).2.length = 14 ∧
    (scrape_lake_data now qm nm fm dm).2.head? = some now ∧
    headerRow.length = 14 ∧
    (qm = none → (scrape_lake_data now qm nm fm dm).2[1]? = some "" ∧
      (scrape_lake_data now qm nm fm dm).2[2]? = some "" ∧
      (scrape_lake_data now qm nm fm dm).2[3]? = some "") ∧
    (nm = none → (scrape_lake_data now qm nm fm dm).2[4]? = some "" ∧
      (scrape_lake_data now qm nm fm dm).2[5]? = some "" ∧
      (scrape_lake_data now qm nm fm dm).2[6]? = some "") ∧
    (fm = none → (scrape_lake_data now qm nm fm dm).2[7]? = some "" ∧
      (scrape_lake_data now qm nm fm dm).2[8]? = some "" ∧
      (scrape_lake_data now qm nm fm dm).2[9]? = some "" ∧
      (scrape_lake_data now qm nm fm dm).2[10]? = some "") ∧
    (dm = none → (scrape_lake_data now qm nm fm dm).2[11]? = some "" ∧
      (scrape_lake_data now qm nm fm dm).2[12]? = some "" ∧
      (scrape_lake_data now qm nm fm dm).2[13]? = some "") := by
  rcases qm with _ | q <;> rcases nm with _ | n <;> rcases fm with _ | f <;>
    rcases dm with _ | d <;> simp [scrape_lake_data, headerRow]

/-- C10 witness: with no pattern matched the data row is the timestamp followed
by 13 empty slots. -/
theorem data_row_schema_witness :
    (scrape_lake_data "2025-11-01 06:00:00" none none none none).2.length = 14 ∧
    (scrape_lake_data "2025-11-01 06:00:00" none none none none).2[8]? = some "" ∧
    (scrape_lake_data "2025-11-01 06:00:00" none none none none).2[13]? = some "" := by
  have h := data_row_schema "2025-11-01 06:00:00" none none none none
  exact ⟨h.1, (h.2.2.2.2.2.1 rfl).2.1, (h.2.2.2.2.2.2 rfl).2.2⟩

/-- C9: whenever the lake section is rendered, a missing Queen's Bay or Nelson
gauge field renders the fixed placeholder `N/A` inside its still-present card,
while the forecast and discharge cards are omitted entirely exactly when their
defining field (forecast level, discharge cfs) is absent — and emitted with
their data slots when it is present and nonempty. -/
theorem lake_section_placeholders (ld : LakeData) (l_out : LakeSection)
    (hout : lake_section_html (some ld) = some l_out) :
    (ld.queens_ft = none → l_out.queens_ft_text = "N/A") ∧
    (ld.queens_m = none → l_out.queens_m_text = "N/A") ∧
    (ld.nelson_ft = none → l_out.nelson_ft_text = "N/A") ∧
    (ld.nelson_m = none → l_out.nelson_m_text = "N/A") ∧
    (ld.forecast_level = none → l_out.forecast_card = none) ∧
    (∀ lv, ld.forecast_level = some lv → lv ≠ "" →
      l_out.forecast_card =
        some (lv, py_title (ld.forecast_trend.getD ""), ld.forecast_date.getD "")) ∧
    (ld.discharge_cfs = none → l_out.discharge_card = none) ∧
    (∀ cfs, ld.discharge_cfs = some cfs → cfs ≠ "" →
      l_out.discharge_card =
        some (cfs, ld.discharge_location.getD "", ld.discharge_date.getD "")) := by
  by_cases hT : lake_truthy ld
  · simp only [lake_section_html, hT, if_true, Option.some.injEq] at hout
    subst hout
    refine ⟨?_, ?_, ?_, ?_, ?_, ?_, ?_, ?_⟩
    · intro h; simp [h]
    · intro h; simp [h]
    · intro h; simp [h]
    · intro h; simp [h]
    · intro h; simp [h]
    · intro lv hlv hne; simp [hlv, hne]
    · intro h; simp [h]
    · intro cfs hc hne; simp [hc, hne]
  · simp only [lake_section_html, hT, if_false] at hout
    exact absurd hout (by simp)

/-- C9 witness: an observation with the Queen's Bay and forecast groups absent
and the Nelson and discharge groups present renders `N/A` gauge slots, no
forecast card, and a populated discharge card. -/
theorem lake_section_placeholders_witness :
    witnessSection.queens_ft_text = "N/A" ∧
    witnessSection.forecast_card = none ∧
    witnessSection.discharge_card = some ("30000", "Brilliant Dam", "October 31") := by
  have h := lake_section_placeholders witnessLake witnessSection (by decide)
  exact ⟨h.1 rfl, h.2.2.2.2.1 rfl, h.2.2.2.2.2.2.2 "30000" rfl (by decide)⟩

/-- C8 counterexample: on a run where every step succeeds except the final page
render, the run aborts (its exception is the render failure) even though the
weather fetch succeeded — so the weather fetch is not the only step whose
failure aborts the whole run. -/
theorem html_failure_aborts_run :
    (main_run ⟨true, true, true, true, false⟩).2.2 = some Step.html ∧
    (main_run ⟨true, true, true, true, false⟩).2.2 ≠ none ∧
    (⟨true, true, true, true, false⟩ : StepOutcomes).weatherOk = true := by decide

/-- C8 (amended: the unguarded page render also aborts): a run finishes
normally exactly when the weather fetch and the page render both succeed; a
weather failure aborts before any later step; when the weather fetch succeeds
the chart and page steps are always reached whatever the scrape, sheets or
chart outcomes; the sheets append is reached exactly when the scrape produced
data; and the scrape, sheets-append and chart outcomes change neither which
steps are attempted nor whether the run aborts. -/
theorem run_abort_policy (o : StepOutcomes) (b c : Bool) :
    ((main_run o).2.2 = none ↔ (o.weatherOk = true ∧ o.htmlOk = true)) ∧
    (o.weatherOk = false →
      (main_run o).2.2 = some Step.weather ∧ (main_run o).1 = [Step.weather]) ∧
    (o.weatherOk = true →
      Step.chart ∈ (main_run o).1 ∧ Step.html ∈ (main_run o).1) ∧
    (o.weatherOk = true → (Step.sheets ∈ (main_run o).1 ↔ o.scrapeOk = true)) ∧
    ((main_run { o with sheetsOk := b, chartOk := c }).1 = (main_run o).1 ∧
     (main_run { o with sheetsOk := b, chartOk := c }).2.2 = (main_run o).2.2) := by
  obtain ⟨w, s, sh, ch, h⟩ := o
  cases w <;> cases s <;> cases sh <;> cases ch <;> cases h <;> cases b <;>
    cases c <;> decide

/-- C8 witness: with a failed scrape the sheets append is skipped, and with a
failed chart step the run still finishes normally. -/
theorem run_abort_policy_witness :
    ¬ Step.sheets ∈ (main_run ⟨true, false, true, true, true⟩).1 ∧
    (main_run ⟨true, true, true, false, true⟩).2.2 = none := by
  refine ⟨?_, ?_⟩
  · intro hmem
    exact absurd (((run_abort_policy ⟨true, false, true, true, true⟩ true true).2.2.2.1
      rfl).mp hmem) (by decide)
  · exact (run_abort_policy ⟨true, true, true, false, true⟩ true true).1.mpr
      (by decide)

/-- C7 (spec-modelled): a data point dated Feb-29 of a leap year, projected
onto a non-leap reference year, is remapped to Feb-28 of the reference year and
is not dropped. -/
theorem feb29_remaps_to_feb28 (y refYear : Nat) (hy : isLeapYear y = true)
    (hr : isLeapYear refYear = false) :
    remap_to_reference_year refYear ⟨y, 2, 29⟩ = some ⟨refYear, 2, 28⟩ ∧
    (remap_to_reference_year refYear ⟨y, 2, 29⟩).isSome = true := by
  constructor
  · simp [remap_to_reference_year, hr]
  · simp [remap_to_reference_year, hr]

/-- C7 witness: Feb-29 2024 projected onto the non-leap year 2025 lands on
Feb-28 2025. -/
theorem feb29_remaps_to_feb28_witness :
    remap_to_reference_year 2025 ⟨2024, 2, 29⟩ = some ⟨2025, 2, 28⟩ ∧
    (remap_to_reference_year 2025 ⟨2024, 2, 29⟩).isSome = true :=
  feb29_remaps_to_feb28 2024 2025 (by decide) (by decide)
